import Mathlib

/-!
# Verification of the ZED camera sensor (`src/sensors/sensors_v1/camera_final.py`)

A shallow embedding of the `ZedCameraSensor` class and its helpers.  Machine
integers of the source are bytes (`uint8` samples), modelled as `Nat`; numpy
arrays are modelled as a flat byte list together with their shape (numpy
guarantees `bytes.length = shape.prod`, which theorems carry as a hypothesis
where it matters); Python exceptions are modelled by returning
`Except PyError _` (or an `Option PyError` paired with the mutated state when
the partial mutation matters); the filesystem backing `np.memmap` is modelled
as an association list from filename to file content, newest entry first.
-/

/-- The Python exceptions that the source can raise, including the built-in
ones that escape from slips in the code (`AttributeError` from calling a
method on `None` / a missing attribute, `UnboundLocalError` from reading a
never-assigned local, `ValueError` from `np.memmap` when the requested shape
exceeds an existing file's size). -/
inductive PyError where
  | assertionError (msg : String)
  | attributeError
  | unboundLocalError
  | imageCaptureError (msg : String)
  | cameraActivationError
  | fileNotFoundError
  | valueError
  deriving DecidableEq, Repr

/-- The `sl.VIEW` enum values the class stores (`sl.VIEW.LEFT` / `sl.VIEW.RIGHT`). -/
inductive SlView where
  | LEFT
  | RIGHT
  deriving DecidableEq, Repr

/-- The dynamic type of the `self.camera_view` attribute: a Python string after
`__init__` (line 102), an `sl.VIEW` enum value after `start` (lines 138-141). -/
inductive CameraViewField where
  | pyStr (s : String)
  | slview (v : SlView)
  deriving DecidableEq, Repr

/-- A numpy `uint8` array: its shape and its flat (row-major) byte content. -/
structure NpArray where
  shape : List Nat
  bytes : List Nat
  deriving DecidableEq, Repr, Inhabited

/-- Fuel-driven chunking of a flat byte list into pixels of `c` channels
(structural recursion on the fuel so that the kernel can evaluate it). -/
def chunksFuel : Nat → Nat → List Nat → List (List Nat)
  | 0, _, _ => []
  | _ + 1, _, [] => []
  | fuel + 1, c, l => l.take c :: chunksFuel fuel c (l.drop c)

/-- Split a flat byte list into consecutive groups of `c` bytes (the pixels of
an array whose innermost axis has length `c`). -/
def chunks (c : Nat) (l : List Nat) : List (List Nat) :=
  if c = 0 then [] else chunksFuel l.length c l

/-- The numpy basic slice `a[:, :, 0:3]` on a rank-3 array: keep the first
three channels of every pixel.  The resulting innermost axis has length
`min 3 c`. -/
def slice3 (a : NpArray) : NpArray :=
  match a.shape with
  | [h, w, c] => ⟨[h, w, min 3 c], ((chunks c a.bytes).map (fun px => px.take 3)).flatten⟩
  | _ => a

/-- The channel count of a rank-3 array (its third axis), if any. -/
def numChannelsOf (a : NpArray) : Option Nat :=
  a.shape.get? 2

/-- Python's `str.lower()` (ASCII case suffices for the view names the class
compares against), defined by mapping `Char.toLower` over the characters so
that the kernel can evaluate it. -/
def pyLower (s : String) : String :=
  String.mk (s.data.map Char.toLower)

/-- The filesystem seen by `np.memmap`: filename to file byte content, newest
entry first (`List.lookup` returns the newest). -/
def BufferStore := List (String × List Nat)

instance : DecidableEq BufferStore := by
  unfold BufferStore
  infer_instance

instance : Inhabited BufferStore := ⟨([] : List (String × List Nat))⟩

instance : Repr BufferStore :=
  inferInstanceAs (Repr (List (String × List Nat)))

/-- Look a filename up in the store (`os.path.exists` + reading the file). -/
def BufferStore.lookup (fs : BufferStore) (filename : String) : Option (List Nat) :=
  List.lookup filename fs

/-- The behaviour of the external ZED device (`FrameSource` collaborator) for
one `start` call: whether `zed.open` succeeds, the camera resolution it
reports, and the raw `U8_C4` matrices the two initial `retrieve_image` calls
deliver (left view and depth view). -/
structure DeviceModel where
  openOk : Bool
  width : Nat
  height : Nat
  leftImage : NpArray
  depthImage : NpArray
  deriving DecidableEq, Repr

/-- The attributes of a `ZedCameraSensor` instance.  `Option` is `None` vs. a
value; `thread` records whether the worker thread attribute exists at all
(`self.thread` is only created inside `start`, line 179). -/
structure ZedCameraSensor where
  include_depth : Bool
  started : Option Bool
  camera_resolution : String
  fps : Nat
  camera_view : CameraViewField
  image_frame : Option NpArray
  depth_map : Option NpArray
  image_width : Option Nat
  image_height : Option Nat
  num_channels : Nat
  zed : Option Unit
  thread : Option Unit
  deriving DecidableEq, Repr

namespace ZedCameraSensor

/-- The static compatibility table `self.camera_info` (lines 72-84):
resolution key to its allowed fps list. -/
def camera_info (res : String) : Option (List Nat) :=
  if res = "720" then some [15, 30, 60]
  else if res = "1080" then some [15, 30]
  else if res = "2K" then some [15]
  else none

/-- `__init__` (lines 64-107): set the attributes, then the three `assert`
statements in source order (camera view, resolution, fps), then store the
validated configuration.  A failed assertion raises `AssertionError` and no
instance is returned to the caller. -/
def init (camera_resolution : String) (fps : Nat) (camera_view : String)
    (include_depth : Bool) : Except PyError ZedCameraSensor :=
  if pyLower camera_view = "left" ∨ pyLower camera_view = "right" then
    match camera_info camera_resolution with
    | none => .error (.assertionError "Incorrect Resolution")
    | some allowed =>
      if fps ∈ allowed then
        .ok { include_depth := include_depth
              started := none
              camera_resolution := camera_resolution
              fps := fps
              camera_view := .pyStr (pyLower camera_view)
              image_frame := none
              depth_map := none
              image_width := none
              image_height := none
              num_channels := 4
              zed := none
              thread := none }
      else .error (.assertionError "Invalid FPS for given resolution")
  else .error (.assertionError "Incorrect Camera View")

/-- `start` (lines 109-180).  No-op if already started.  Otherwise: create the
camera object, convert `camera_view` from its string to the `sl.VIEW` enum
(lines 138-141 - note this happens before `zed.open`, and the comparison
`self.camera_view == 'left'` is only true for the string `'left'`), open the
device (raising `CameraActivationError` on failure), record the reported
resolution, mark the sensor started, store the first retrieved image - the
raw `get_data()` output, retrieved with the hard-coded `sl.VIEW.LEFT` and
with no channel slicing (lines 172-176) - and spawn the worker thread.
Returns the raised exception (if any) together with the mutated state. -/
def start (s : ZedCameraSensor) (dev : DeviceModel) :
    Option PyError × ZedCameraSensor :=
  if s.started = some true then (none, s)
  else
    let s := { s with zed := some () }
    let s := { s with camera_view :=
      match s.camera_view with
      | .pyStr v => if v = "left" then .slview .LEFT else .slview .RIGHT
      | .slview _ => .slview .RIGHT }
    if dev.openOk = false then (some .cameraActivationError, s)
    else
      let s := { s with image_width := some dev.width,
                        image_height := some dev.height }
      let s := { s with started := some true }
      let s := { s with image_frame := some dev.leftImage }
      let s := if s.include_depth then { s with depth_map := some dev.depthImage } else s
      let s := { s with thread := some () }
      (none, s)

/-- `get_image_frame` (lines 228-238): under the lock, `self.image_frame.copy()`.
When `image_frame` is `None` (no frame stored yet) the `.copy()` call raises
`AttributeError`; otherwise the copy of the stored frame's bytes is returned
(value-level, a copy is equal to the original; buffer identity is treated by
the heap model below). -/
def get_image_frame (s : ZedCameraSensor) : Except PyError NpArray :=
  match s.image_frame with
  | none => .error .attributeError
  | some f => .ok f

/-- `get_depth_map` (lines 240-250): same shape as `get_image_frame`, on
`self.depth_map`. -/
def get_depth_map (s : ZedCameraSensor) : Except PyError NpArray :=
  match s.depth_map with
  | none => .error .attributeError
  | some f => .ok f

/-- `exit` (lines 252-260): `self.started = False`, then `self.thread.join()`
(an `AttributeError` when `start` never ran, because the `thread` attribute
was never created; a completed or cooperatively-stopping worker joins
immediately, so the join is modelled as returning), then `self.zed.close()`
(an `AttributeError` on `None`).  Neither `thread` nor `zed` is cleared, so a
repeated call takes the same path. -/
def exit (s : ZedCameraSensor) : Option PyError × ZedCameraSensor :=
  let s := { s with started := some false }
  match s.thread with
  | none => (some .attributeError, s)
  | some _ =>
    match s.zed with
    | none => (some .attributeError, s)
    | some _ => (none, s)

/-- `mmap_write` (lines 262-280).  If the file exists, `np.memmap` in mode
`'r+'` with the data's shape maps its first `shape.prod` bytes - and raises
`ValueError` when the file is smaller than that; `[:] = data[:]` then
overwrites the mapped prefix, leaving any trailing bytes intact.  If the file
does not exist, mode `'w+'` creates it with exactly the data's bytes. -/
def mmap_write (fs : BufferStore) (filename : String) (data : NpArray) :
    Except PyError BufferStore :=
  match fs.lookup filename with
  | some bs =>
    if data.shape.prod ≤ bs.length then
      .ok ((filename, data.bytes ++ bs.drop data.shape.prod) :: fs)
    else .error .valueError
  | none => .ok ((filename, data.bytes) :: fs)

/-- `mmap_read` (lines 282-295): if the file exists, map it copy-on-write
(mode `'c'`, so the read never modifies the backing file - the model returns
the bytes without touching the store) with the caller-supplied shape, raising
`ValueError` when the file is smaller than the shape requires; otherwise
raise `FileNotFoundError`. -/
def mmap_read (fs : BufferStore) (filename : String) (image_shape : List Nat) :
    Except PyError (List Nat) :=
  match fs.lookup filename with
  | some bs =>
    if image_shape.prod ≤ bs.length then .ok (bs.take image_shape.prod)
    else .error .valueError
  | none => .error .fileNotFoundError

/-- `send_to_buffer` (lines 297-306): a thin wrapper over `mmap_write`. -/
def send_to_buffer (fs : BufferStore) (filename : String) (image_arr : NpArray) :
    Except PyError BufferStore :=
  mmap_write fs filename image_arr

/-- `get_from_buffer` (lines 308-319): a thin wrapper over `mmap_read`. -/
def get_from_buffer (fs : BufferStore) (filename : String) (image_shape : List Nat) :
    Except PyError (List Nat) :=
  mmap_read fs filename image_shape

/-- The state threaded through the acquisition loop `_update` (lines 182-226):
the two frame attributes it writes under the lock (the in-process
`FrameStateCell`), the filesystem holding the named shared buffers, and the
Python local variable `depth_ocv` - a local of the `_update` call, which
persists across loop iterations once assigned and raises
`UnboundLocalError` when read before any assignment (`none` = unbound). -/
structure LoopState where
  cell_image : Option NpArray
  cell_depth : Option NpArray
  fs : BufferStore
  depth_ocv : Option NpArray
  deriving DecidableEq, Repr

/-- The outcome of one `zed.grab` call: success delivers the two raw `U8_C4`
matrices the subsequent `retrieve_image` calls read, failure is any
non-`SUCCESS` error code. -/
inductive GrabStep where
  | success (raw : NpArray) (rawDepth : NpArray)
  | failure
  deriving DecidableEq, Repr

/-- One iteration of the `while self.started:` body of `_update`
(lines 192-226).  On grab success: slice the configured view's image to 3
channels (line 198), likewise the depth view when `include_depth` (lines
201-204, assigning the local `depth_ocv`), store both under the lock (lines
206-213), then `send_to_buffer('zed_image', image_ocv)` and - unconditionally -
`send_to_buffer('zed_depth_map', depth_ocv)` (lines 216-217), where reading
the local `depth_ocv` raises `UnboundLocalError` if it was never assigned.
On grab failure: raise `ImageCaptureError` (line 226).  Returns the raised
exception (if any) and the state as mutated up to that point. -/
def updateStep (include_depth : Bool) (st : LoopState) :
    GrabStep → Option PyError × LoopState
  | .failure => (some (.imageCaptureError "camera failed to return an image"), st)
  | .success raw rawDepth =>
    let image_ocv := slice3 raw
    let d := if include_depth then some (slice3 rawDepth) else st.depth_ocv
    let st := { st with
      cell_image := some image_ocv,
      cell_depth := if include_depth then d else st.cell_depth,
      depth_ocv := d }
    match ZedCameraSensor.send_to_buffer st.fs "zed_image" image_ocv with
    | .error e => (some e, st)
    | .ok fs1 =>
      match d with
      | none => (some .unboundLocalError, { st with fs := fs1 })
      | some dv =>
        match ZedCameraSensor.send_to_buffer fs1 "zed_depth_map" dv with
        | .error e => (some e, { st with fs := fs1 })
        | .ok fs2 => (none, { st with fs := fs2 })

/-- Run `_update` over a finite trace of grab outcomes (the grabs that happen
while `self.started` holds): iterate until the trace is exhausted or an
exception kills the loop, in which case the remaining trace is never
processed (no retry). -/
def updateRun (include_depth : Bool) (st : LoopState) :
    List GrabStep → Option PyError × LoopState
  | [] => (none, st)
  | g :: gs =>
    match updateStep include_depth st g with
    | (some e, st') => (some e, st')
    | (none, st') => updateRun include_depth st' gs

/-- An operation a caller can perform on a constructed sensor: `start` (with
the device behaviour it meets), the two snapshot accessors (which do not
mutate the instance), or `exit`. -/
inductive SensorOp where
  | startOp (dev : DeviceModel)
  | getImageOp
  | getDepthOp
  | exitOp

/-- Apply one operation to the instance, keeping the state as mutated even
when the operation raises. -/
def applyOp (s : ZedCameraSensor) : SensorOp → ZedCameraSensor
  | .startOp dev => (s.start dev).2
  | .getImageOp => s
  | .getDepthOp => s
  | .exitOp => (s.exit).2

/-- Apply a sequence of operations left to right. -/
def applyOps (s : ZedCameraSensor) : List SensorOp → ZedCameraSensor
  | [] => s
  | op :: ops => applyOps (applyOp s op) ops

/-!
## Buffer-identity model of the snapshot accessors

The value-level accessors above cannot distinguish a copy from an alias, so
the copy semantics of `get_image_frame` / `get_depth_map` (numpy `.copy()`)
is modelled on a heap of numpy buffers: buffer ids map to byte content, the
state cell holds ids, and `.copy()` allocates a fresh id carrying the same
bytes.  Mutating a buffer rewrites its id's content in place.
-/

/-- A heap of numpy buffers: the next fresh id and the content of every id. -/
structure Heap where
  next : Nat
  data : Nat → List Nat

/-- Allocate a fresh buffer holding `bs` (what `.copy()` does). -/
def Heap.alloc (h : Heap) (bs : List Nat) : Nat × Heap :=
  (h.next, { next := h.next + 1,
             data := fun i => if i = h.next then bs else h.data i })

/-- Overwrite buffer `i` in place with `bs` (a caller mutating an array). -/
def Heap.mutateRef (h : Heap) (i : Nat) (bs : List Nat) : Heap :=
  { h with data := fun j => if j = i then bs else h.data j }

/-- The `FrameStateCell` at buffer granularity: the ids of the stored image
and depth buffers (`none` before any frame is stored). -/
structure CellRefs where
  image : Option Nat
  depth : Option Nat

/-- `get_image_frame` at buffer granularity: under the lock, `.copy()` the
stored image buffer into a fresh buffer and return its id (AttributeError on
`None`, as in the value-level model). -/
def CellRefs.get_image_frame (c : CellRefs) (h : Heap) :
    Except PyError (Nat × Heap) :=
  match c.image with
  | none => .error .attributeError
  | some r => .ok (h.alloc (h.data r))

/-- `get_depth_map` at buffer granularity. -/
def CellRefs.get_depth_map (c : CellRefs) (h : Heap) :
    Except PyError (Nat × Heap) :=
  match c.depth with
  | none => .error .attributeError
  | some r => .ok (h.alloc (h.data r))

/-!
## Interleaving model of one `update` against one snapshot

The producer's critical section in `_update` (lines 206-213: acquire, assign
`image_frame`, assign `depth_map`, release) and a reader's critical section
in `get_image_frame` (lines 235-237: acquire, copy out the frame, release)
are modelled as step sequences of two threads sharing the `read_lock`; a
schedule picks which thread moves, and a thread whose next step needs the
lock simply does not advance while the other holds it. -/

/-- The producer's position in its update critical section: about to acquire
the lock, about to assign `image_frame` (line 208), about to assign
`depth_map` (line 211), about to release (line 213), or finished. -/
inductive PPhase where
  | acquire
  | writeImg
  | writeDep
  | release
  | done
  deriving DecidableEq, Repr

/-- The reader's position in its snapshot critical section: about to acquire
the lock (line 235), about to copy the frame out (line 236), about to
release (line 237), or finished. -/
inductive RPhase where
  | acquire
  | copy
  | release
  | done
  deriving DecidableEq, Repr

/-- Joint state of the producer's update and one reader's snapshot:
who holds the lock (`some true` = producer, `some false` = reader, `none` =
free), each thread's phase, the cell's two frames (each a complete byte
list), and the reader's copied-out result. -/
structure MState where
  lock : Option Bool
  ppc : PPhase
  rpc : RPhase
  img : List Nat
  dep : List Nat
  localImg : Option (List Nat)
  deriving DecidableEq, Repr

/-- One producer step of the update critical section
(`acquire; image_frame := newI; depth_map := newD; release`); a blocked
acquire leaves the state unchanged. -/
def pstep (newI newD : List Nat) (s : MState) : MState :=
  match s.ppc with
  | .acquire => if s.lock = none then { s with lock := some true, ppc := .writeImg } else s
  | .writeImg => { s with img := newI, ppc := .writeDep }
  | .writeDep => { s with dep := newD, ppc := .release }
  | .release => { s with lock := none, ppc := .done }
  | .done => s

/-- One reader step of the snapshot critical section
(`acquire; localImg := image_frame.copy(); release`). -/
def rstep (s : MState) : MState :=
  match s.rpc with
  | .acquire => if s.lock = none then { s with lock := some false, rpc := .copy } else s
  | .copy => { s with localImg := some s.img, rpc := .release }
  | .release => { s with lock := none, rpc := .done }
  | .done => s

/-- Run a schedule (`true` = producer moves, `false` = reader moves). -/
def runSched (newI newD : List Nat) : List Bool → MState → MState
  | [], s => s
  | b :: bs, s => runSched newI newD bs (if b then pstep newI newD s else rstep s)

/-- Initial joint state: lock free, both threads at their first step, the
cell holding the pre-update frame pair, nothing copied out yet. -/
def initM (oldI oldD : List Nat) : MState :=
  { lock := none, ppc := .acquire, rpc := .acquire, img := oldI, dep := oldD,
    localImg := none }

/-- The producer is inside its critical section (between a successful
`acquire` and the completion of `release`). -/
def pInCS (s : MState) : Prop :=
  s.ppc = .writeImg ∨ s.ppc = .writeDep ∨ s.ppc = .release

/-- The reader is inside its critical section. -/
def rInCS (s : MState) : Prop :=
  s.rpc = .copy ∨ s.rpc = .release

/-- `true` iff `__init__` returned an instance. -/
def constructionOk (e : Except PyError ZedCameraSensor) : Bool :=
  match e with
  | .ok _ => true
  | .error _ => false

/-- `true` iff `__init__` raised a configuration error (one of its three
`assert` statements failed). -/
def isConfigFailure (e : Except PyError ZedCameraSensor) : Bool :=
  match e with
  | .error (.assertionError _) => true
  | _ => false

/-- The bytes the in-process image snapshot would return on the buffer heap:
run `get_image_frame` and read the returned buffer. -/
def snapshotImageBytes (c : CellRefs) (h : Heap) : Option (List Nat) :=
  match c.get_image_frame h with
  | .ok (i, h') => some (h'.data i)
  | .error _ => none

/-- The bytes the in-process depth snapshot would return on the buffer heap. -/
def snapshotDepthBytes (c : CellRefs) (h : Heap) : Option (List Nat) :=
  match c.get_depth_map h with
  | .ok (i, h') => some (h'.data i)
  | .error _ => none

/-- The inductive invariant of the update/snapshot interleaving machine: a
thread inside its critical section holds the lock, the cell's image is always
one complete frame (the pre- or the post-update one), and anything the
reader has copied out is one complete frame. -/
def MInv (oldI newI : List Nat) (s : MState) : Prop :=
  (pInCS s → s.lock = some true) ∧
  (rInCS s → s.lock = some false) ∧
  (s.img = oldI ∨ s.img = newI) ∧
  (s.localImg = none ∨ s.localImg = some oldI ∨ s.localImg = some newI)

/-- A fallback instance for extracting a sensor from a construction result in
concrete statements (never reached on the inputs it is used with). -/
def sensorOrDummy (e : Except PyError ZedCameraSensor) : ZedCameraSensor :=
  match e with
  | .ok s => s
  | .error _ =>
    { include_depth := false, started := none, camera_resolution := ""
      fps := 0, camera_view := .pyStr "", image_frame := none
      depth_map := none, image_width := none, image_height := none
      num_channels := 4, zed := none, thread := none }

/-- A concrete raw `U8_C4` frame (one pixel, four channels) as delivered by
`retrieve_image` of the left view. -/
def raw4A : NpArray := ⟨[1, 1, 4], [1, 2, 3, 4]⟩

/-- A second concrete raw left-view frame. -/
def raw4B : NpArray := ⟨[1, 1, 4], [5, 6, 7, 8]⟩

/-- A concrete raw depth-view frame. -/
def raw4D : NpArray := ⟨[1, 1, 4], [9, 8, 7, 6]⟩

/-- A concrete healthy device: `open` succeeds and the initial retrieves
deliver `raw4A` / `raw4D`. -/
def devC : DeviceModel := ⟨true, 1, 1, raw4A, raw4D⟩

/-- The loop state at worker entry with an empty filesystem. -/
def st0 : LoopState := ⟨none, none, ([] : List (String × List Nat)), none⟩

/-- The sensor constructed by `ZedCameraSensor('1080', 30, 'left', True)`. -/
def s1080 : ZedCameraSensor := sensorOrDummy (init "1080" 30 "left" true)

/-- `s1080` after a successful `start()` against `devC`. -/
def s1080on : ZedCameraSensor := (s1080.start devC).2

/-- A concrete buffer heap: buffer 0 holds the stored image bytes, buffer 1
the stored depth bytes. -/
def heapC : Heap :=
  ⟨2, fun i => if i = 0 then [1, 2, 3] else if i = 1 then [9, 8, 7] else []⟩

/-- A concrete state cell pointing at the two buffers of `heapC`. -/
def cellC : CellRefs := ⟨some 0, some 1⟩

/-- A concrete store in which `"zed_image"` already exists with four stale
bytes (the reused-file case of `mmap_write`). -/
def fs4 : BufferStore := [("zed_image", [9, 9, 9, 9])]

/-- A concrete three-channel frame to write into a shared buffer. -/
def np3 : NpArray := ⟨[1, 1, 3], [1, 2, 3]⟩

/-- The store `fs4` after `mmap_write` has overwritten the mapped prefix of
the existing `"zed_image"` file with the bytes of `np3` (the fourth stale
byte survives because the file is reused, not truncated). -/
def fs4w : BufferStore :=
  [("zed_image", [1, 2, 3, 9]), ("zed_image", [9, 9, 9, 9])]

end ZedCameraSensor

open ZedCameraSensor

/-!
## Theorems
-/

/-- C1: with depth disabled, a successful pull still reaches the
unconditional `send_to_buffer('zed_depth_map', depth_ocv)` call (line 217):
the image is written to `"zed_image"`, but reading the never-assigned local
`depth_ocv` raises `UnboundLocalError`, so no `"zed_depth_map"` write occurs
and the iteration does not complete - the loop dies on its first successful
pull instead of skipping the depth write. -/
theorem C1_depth_disabled_crashes_loop :
    (updateRun false st0 [.success raw4A raw4D]).1 = some PyError.unboundLocalError ∧
    (updateRun false st0 [.success raw4A raw4D]).2.fs.lookup "zed_image"
      = some (slice3 raw4A).bytes ∧
    (updateRun false st0 [.success raw4A raw4D]).2.fs.lookup "zed_depth_map" = none := by
  decide

/-- C3 counterexample: on a freshly constructed sensor (`start()` never
called) `exit()` raises `AttributeError`, because the `thread` attribute is
only created inside `start` - so `stop()` is not safe when `start()` was
never called, contrary to the claim. -/
theorem C3_stop_without_start_raises :
    ZedCameraSensor.init "1080" 30 "left" true = .ok s1080 ∧
    (s1080.exit).1 = some PyError.attributeError :=
  ⟨rfl, rfl⟩

/-- C5 counterexample: `start()` succeeds but overwrites `camera_view`
(lines 138-141) with the `sl.VIEW` enum, so the view field no longer holds
the value `'left'` established by the constructor. -/
theorem C5_camera_view_mutated_by_start :
    (s1080.start devC).1 = none ∧
    s1080.camera_view = CameraViewField.pyStr "left" ∧
    (s1080.start devC).2.camera_view ≠ CameraViewField.pyStr "left" := by
  refine ⟨rfl, rfl, ?_⟩
  decide

/-- C6 counterexample: the initial frame stored by `start()` (line 173) is
the raw `get_data()` output with no `[:, :, 0:3]` slicing, so the first
frame available after `start()` returns still has all 4 channels. -/
theorem C6_first_frame_after_start_has_four_channels :
    (s1080.start devC).1 = none ∧
    (s1080.start devC).2.image_frame = some raw4A ∧
    numChannelsOf raw4A = some 4 ∧ numChannelsOf raw4A ≠ some 3 := by
  refine ⟨rfl, rfl, rfl, ?_⟩
  decide

/-- Helper: a successfully constructed instance has no stored frame yet
(`image_frame` and `depth_map` are still `None` from lines 88 and 91). -/
theorem init_ok_no_frames (res view : String) (fps : Nat) (d : Bool) (s : ZedCameraSensor)
    (h : ZedCameraSensor.init res fps view d = .ok s) :
    s.image_frame = none ∧ s.depth_map = none := by
  unfold ZedCameraSensor.init at h
  split at h
  · split at h
    · exact absurd h (by simp)
    · split at h
      · simp only [Except.ok.injEq] at h
        subst h
        exact ⟨rfl, rfl⟩
      · exact absurd h (by simp)
  · exact absurd h (by simp)

/-- Helper: no single operation writes `camera_resolution`, `fps` or
`include_depth`. -/
theorem applyOp_preserves_config (s : ZedCameraSensor) (op : SensorOp) :
    (applyOp s op).camera_resolution = s.camera_resolution ∧
    (applyOp s op).fps = s.fps ∧
    (applyOp s op).include_depth = s.include_depth := by
  cases op with
  | startOp dev =>
    simp only [applyOp, ZedCameraSensor.start]
    split
    · exact ⟨rfl, rfl, rfl⟩
    · split
      · exact ⟨rfl, rfl, rfl⟩
      · split <;> exact ⟨rfl, rfl, rfl⟩
  | getImageOp => exact ⟨rfl, rfl, rfl⟩
  | getDepthOp => exact ⟨rfl, rfl, rfl⟩
  | exitOp =>
    simp only [applyOp, ZedCameraSensor.exit]
    split
    · exact ⟨rfl, rfl, rfl⟩
    · split <;> exact ⟨rfl, rfl, rfl⟩

/-- Helper: running the loop over a concatenated trace runs the second part
from the state the first part reached, unless the first part already raised. -/
theorem updateRun_append (inc : Bool) (st : LoopState) (xs ys : List GrabStep) :
    updateRun inc st (xs ++ ys) =
      match updateRun inc st xs with
      | (none, st') => updateRun inc st' ys
      | (some e, st') => (some e, st') := by
  induction xs generalizing st with
  | nil => simp [updateRun]
  | cons x xs ih =>
    simp only [List.cons_append, updateRun]
    rcases h : updateStep inc st x with ⟨e, st'⟩
    cases e <;> simp [ih]

/-- Helper: chunking a list of `4 * k` bytes into 4-byte pixels and keeping
3 bytes of each yields `3 * k` bytes. -/
theorem chunksFuel_take3_length (fuel : Nat) : ∀ (l : List Nat) (k : Nat),
    l.length = 4 * k → l.length ≤ fuel →
    (((chunksFuel fuel 4 l).map (fun px => px.take 3)).flatten).length = 3 * k := by
  induction fuel with
  | zero =>
    intro l k hk hf
    have hl : l = [] := List.eq_nil_of_length_eq_zero (by omega)
    subst hl
    simp [chunksFuel] at hk ⊢
    omega
  | succ fuel ih =>
    intro l k hk hf
    cases l with
    | nil =>
      simp [chunksFuel] at hk ⊢
      omega
    | cons x xs =>
      have hlc : (x :: xs).length = xs.length + 1 := List.length_cons x xs
      rw [hlc] at hk hf
      have hk1 : 1 ≤ k := by omega
      have h4 : 4 ≤ xs.length + 1 := by omega
      simp only [chunksFuel, List.map_cons, List.flatten_cons, List.length_append]
      have h1 : (((x :: xs).take 4).take 3).length = 3 := by
        simp only [List.length_take, List.length_cons]
        rw [Nat.min_eq_left h4]
        decide
      have hdl : ((x :: xs).drop 4).length = xs.length + 1 - 4 := by
        simp [List.length_drop]
      have h2 := ih ((x :: xs).drop 4) (k - 1) (by rw [hdl]; omega) (by rw [hdl]; omega)
      rw [h1, h2]
      omega

/-- Helper: `slice3` of a well-formed 4-channel array is itself well-formed
(its bytes fill its `[h, w, 3]` shape exactly). -/
theorem slice3_wf (a : NpArray) (hh ww : Nat) (hsh : a.shape = [hh, ww, 4])
    (hlen : a.bytes.length = a.shape.prod) :
    (slice3 a).bytes.length = (slice3 a).shape.prod := by
  have hlen4 : a.bytes.length = 4 * (hh * ww) := by
    rw [hlen, hsh]
    simp [List.prod_cons]
    ring
  simp only [slice3, hsh]
  rw [chunks, if_neg (by omega)]
  rw [chunksFuel_take3_length a.bytes.length a.bytes (hh * ww) hlen4 le_rfl]
  simp [List.prod_cons]
  ring

/-- Helper: `mmap_write` touches only the file it names; every other
filename still maps to its previous content. -/
theorem mmap_write_lookup_ne (fs fs' : BufferStore) (name other : String)
    (data : NpArray)
    (hok : ZedCameraSensor.mmap_write fs name data = .ok fs')
    (hne : (other == name) = false) :
    fs'.lookup other = fs.lookup other := by
  unfold ZedCameraSensor.mmap_write at hok
  split at hok
  · split at hok
    · simp only [Except.ok.injEq] at hok
      subst hok
      simp [BufferStore.lookup, List.lookup, hne]
    · exact absurd hok (by simp)
  · simp only [Except.ok.injEq] at hok
    subst hok
    simp [BufferStore.lookup, List.lookup, hne]

/-- Helper: `mmap_read` depends only on the named file's content. -/
theorem mmap_read_congr (fs fs' : BufferStore) (name : String) (shape : List Nat)
    (h : fs.lookup name = fs'.lookup name) :
    ZedCameraSensor.mmap_read fs name shape = ZedCameraSensor.mmap_read fs' name shape := by
  unfold ZedCameraSensor.mmap_read
  rw [h]

/-- Helper: a successful `mmap_write` of a well-formed array followed by an
`mmap_read` of the same name and shape returns the written bytes, whether
the backing file was created or reused. -/
theorem mmap_write_read_back (fs fs' : BufferStore) (name : String) (data : NpArray)
    (hw : data.bytes.length = data.shape.prod)
    (hok : ZedCameraSensor.mmap_write fs name data = .ok fs') :
    ZedCameraSensor.mmap_read fs' name data.shape = .ok data.bytes := by
  unfold ZedCameraSensor.mmap_write at hok
  unfold ZedCameraSensor.mmap_read
  split at hok
  case h_1 bs heq =>
    split at hok
    case isTrue hle =>
      simp only [Except.ok.injEq] at hok
      subst hok
      simp only [BufferStore.lookup, List.lookup, beq_self_eq_true, if_pos]
      rw [if_pos]
      · rw [← hw, List.take_left]
      · simp only [List.length_append, List.length_drop]
        omega
    case isFalse => exact absurd hok (by simp)
  case h_2 heq =>
    simp only [Except.ok.injEq] at hok
    subst hok
    simp only [BufferStore.lookup, List.lookup, beq_self_eq_true, if_pos]
    rw [if_pos]
    · rw [← hw, List.take_length]
    · omega

/-- Helper: one producer step preserves the machine invariant. -/
theorem minv_pstep (oldI newI newD : List Nat) (s : MState) (h : MInv oldI newI s) :
    MInv oldI newI (pstep newI newD s) := by
  obtain ⟨P1, P2, P3, P4⟩ := h
  rcases hp : s.ppc <;>
    (simp_all [pstep, MInv, pInCS, rInCS];
     (try (by_cases hl : s.lock = none <;> simp_all)))

/-- Helper: one reader step preserves the machine invariant. -/
theorem minv_rstep (oldI newI : List Nat) (s : MState) (h : MInv oldI newI s) :
    MInv oldI newI (rstep s) := by
  obtain ⟨P1, P2, P3, P4⟩ := h
  rcases hp : s.rpc <;>
    (simp_all [rstep, MInv, pInCS, rInCS];
     (try (by_cases hl : s.lock = none <;> simp_all)))

/-- Helper: the machine invariant holds along every schedule. -/
theorem minv_run (oldI newI newD : List Nat) (sched : List Bool) (s : MState)
    (h : MInv oldI newI s) : MInv oldI newI (runSched newI newD sched s) := by
  induction sched generalizing s with
  | nil => exact h
  | cons b bs ih =>
    cases b
    · exact ih _ (minv_rstep oldI newI s h)
    · exact ih _ (minv_pstep oldI newI newD s h)

/-- Helper: the machine invariant holds initially. -/
theorem minv_init (oldI oldD newI : List Nat) : MInv oldI newI (initM oldI oldD) := by
  simp [MInv, initM, pInCS, rInCS]

/-- C2: construction succeeds exactly when the (lower-cased) view is one of
the two supported views, the resolution is a key of `camera_info` and the
fps belongs to that resolution's allowed set (`720 -> {15,30,60}`,
`1080 -> {15,30}`, `2K -> {15}`); every other input fails with a
configuration (assertion) error, so no instance is ever produced from an
invalid combination. -/
theorem C2_construction_validation (res view : String) (fps : Nat) (d : Bool) :
    (constructionOk (ZedCameraSensor.init res fps view d) = true ↔
      ((pyLower view = "left" ∨ pyLower view = "right") ∧
        ((res = "720" ∧ fps ∈ ([15, 30, 60] : List Nat)) ∨
         (res = "1080" ∧ fps ∈ ([15, 30] : List Nat)) ∨
         (res = "2K" ∧ fps = 15)))) ∧
    (constructionOk (ZedCameraSensor.init res fps view d) = true ∨
      isConfigFailure (ZedCameraSensor.init res fps view d) = true) := by
  constructor
  · by_cases hv : pyLower view = "left" ∨ pyLower view = "right" <;>
    by_cases h7 : res = "720" <;> by_cases h10 : res = "1080" <;> by_cases h2k : res = "2K" <;>
      simp_all [ZedCameraSensor.init, constructionOk, ZedCameraSensor.camera_info,
        apply_ite constructionOk] <;>
      (try (by_cases hf : fps = 15 ∨ fps = 30 ∨ fps = 60 <;>
            by_cases hg : fps = 15 ∨ fps = 30 <;> by_cases hk : fps = 15 <;> simp_all))
  · unfold ZedCameraSensor.init
    split
    · split
      · simp [constructionOk, isConfigFailure]
      · split <;> simp [constructionOk, isConfigFailure]
    · simp [constructionOk, isConfigFailure]

/-- C3 (amended): once a worker thread and a device object exist - that is,
after a successful `start()` - `stop()` raises nothing (the flag is cleared,
the finished or cooperatively-stopping worker joins, the device closes), and
a second `stop()` immediately after a successful `stop()` also raises
nothing, since neither attribute is cleared; but without a successful
`start()` the call raises (see the counterexample). -/
theorem C3_amended_stop_safe_with_worker (s : ZedCameraSensor)
    (h2 : s.thread = some ()) (h3 : s.zed = some ()) :
    (s.exit).1 = none ∧ ((s.exit).2.exit).1 = none := by
  simp [ZedCameraSensor.exit, h2, h3]

theorem C3_amended_stop_safe_with_worker_witness :
    (s1080on.exit).1 = none ∧ ((s1080on.exit).2.exit).1 = none :=
  C3_amended_stop_safe_with_worker s1080on (by decide) (by decide)

/-- C4: on any successfully constructed sensor on which no update has
occurred, both snapshot accessors fail - the `NotReady` condition of the
specification, realised in the code as the `AttributeError` that
`None.copy()` raises - rather than returning a frame. -/
theorem C4_accessors_fail_before_first_update (res view : String) (fps : Nat) (d : Bool)
    (s : ZedCameraSensor) (h : ZedCameraSensor.init res fps view d = .ok s) :
    s.get_image_frame = .error PyError.attributeError ∧
    s.get_depth_map = .error PyError.attributeError := by
  obtain ⟨h1, h2⟩ := init_ok_no_frames res view fps d s h
  simp [ZedCameraSensor.get_image_frame, ZedCameraSensor.get_depth_map, h1, h2]

theorem C4_accessors_fail_before_first_update_witness :
    s1080.get_image_frame = .error PyError.attributeError ∧
    s1080.get_depth_map = .error PyError.attributeError :=
  C4_accessors_fail_before_first_update "1080" "left" 30 true s1080 rfl

/-- C5 (amended): `camera_resolution`, `fps` and `include_depth` are never
modified by any sequence of `start`, snapshot and `exit` calls; the fourth
configuration field, `camera_view`, is not preserved - `start()` overwrites
it with the device view enum (see the counterexample). -/
theorem C5_amended_config_fields_preserved (s : ZedCameraSensor) (ops : List SensorOp) :
    (applyOps s ops).camera_resolution = s.camera_resolution ∧
    (applyOps s ops).fps = s.fps ∧
    (applyOps s ops).include_depth = s.include_depth := by
  induction ops generalizing s with
  | nil => exact ⟨rfl, rfl, rfl⟩
  | cons op ops ih =>
    have h1 := applyOp_preserves_config s op
    have h2 := ih (applyOp s op)
    simp only [applyOps]
    exact ⟨h2.1.trans h1.1, h2.2.1.trans h1.2.1, h2.2.2.trans h1.2.2⟩

/-- C6 (amended): every frame the acquisition loop stores in the state cell
and hands to the shared-buffer writes is the `[:, :, 0:3]` slice of the raw
frame, which has exactly 3 channels when the device delivers 4: the cell
holds `slice3` of the raw frames, and after any iteration that completes
without an exception, reading the two named buffers back with the 3-channel
shape returns exactly the sliced frames' bytes.  The initial frame stored by
`start()` is exempt - it keeps all 4 channels (see the counterexample). -/
theorem C6_amended_loop_frames_three_channels (inc : Bool) (st : LoopState)
    (raw rawD : NpArray) (h w : Nat)
    (hsh : raw.shape = [h, w, 4]) (hshD : rawD.shape = [h, w, 4])
    (hlen : raw.bytes.length = raw.shape.prod)
    (hlenD : rawD.bytes.length = rawD.shape.prod) :
    (updateStep inc st (.success raw rawD)).2.cell_image = some (slice3 raw) ∧
    (slice3 raw).shape = [h, w, 3] ∧
    (inc = true →
      (updateStep inc st (.success raw rawD)).2.cell_depth = some (slice3 rawD) ∧
      (slice3 rawD).shape = [h, w, 3]) ∧
    ((updateStep inc st (.success raw rawD)).1 = none →
      ZedCameraSensor.mmap_read (updateStep inc st (.success raw rawD)).2.fs
          "zed_image" [h, w, 3] = .ok (slice3 raw).bytes ∧
      (inc = true →
        ZedCameraSensor.mmap_read (updateStep inc st (.success raw rawD)).2.fs
            "zed_depth_map" [h, w, 3] = .ok (slice3 rawD).bytes)) := by
  have hsh3 : (slice3 raw).shape = [h, w, 3] := by simp [slice3, hsh]
  have hshD3 : (slice3 rawD).shape = [h, w, 3] := by simp [slice3, hshD]
  have hwf : (slice3 raw).bytes.length = (slice3 raw).shape.prod :=
    slice3_wf raw h w hsh hlen
  have hwfD : (slice3 rawD).bytes.length = (slice3 rawD).shape.prod :=
    slice3_wf rawD h w hshD hlenD
  refine ⟨?_, hsh3, ?_, ?_⟩
  · unfold updateStep
    dsimp only
    split
    · rfl
    · split
      · rfl
      · split <;> rfl
  · intro hinc
    subst hinc
    refine ⟨?_, hshD3⟩
    unfold updateStep
    dsimp only
    split
    · rfl
    · split
      · rfl
      · split <;> rfl
  · intro hne
    cases hq1 : ZedCameraSensor.send_to_buffer st.fs "zed_image" (slice3 raw) with
    | error e =>
      rw [updateStep] at hne
      simp only [hq1] at hne
      simp at hne
    | ok fs1 =>
      simp only [ZedCameraSensor.send_to_buffer] at hq1
      cases inc with
      | true =>
        cases hq2 : ZedCameraSensor.mmap_write fs1 "zed_depth_map" (slice3 rawD) with
        | error e2 =>
          rw [updateStep] at hne
          simp [ZedCameraSensor.send_to_buffer, hq1, hq2] at hne
        | ok fs2 =>
          have hfs : (updateStep true st (.success raw rawD)).2.fs = fs2 := by
            rw [updateStep]
            simp [ZedCameraSensor.send_to_buffer, hq1, hq2]
          rw [hfs]
          constructor
          · have hlk := mmap_write_lookup_ne fs1 fs2 "zed_depth_map" "zed_image"
              (slice3 rawD) hq2 (by decide)
            rw [mmap_read_congr fs2 fs1 "zed_image" [h, w, 3] hlk]
            have hrb := mmap_write_read_back st.fs fs1 "zed_image" (slice3 raw) hwf hq1
            rw [hsh3] at hrb
            exact hrb
          · intro _
            have hrb := mmap_write_read_back fs1 fs2 "zed_depth_map" (slice3 rawD) hwfD hq2
            rw [hshD3] at hrb
            exact hrb
      | false =>
        cases hd : st.depth_ocv with
        | none =>
          rw [updateStep] at hne
          simp [ZedCameraSensor.send_to_buffer, hq1, hd] at hne
        | some dv =>
          cases hq2 : ZedCameraSensor.mmap_write fs1 "zed_depth_map" dv with
          | error e2 =>
            rw [updateStep] at hne
            simp [ZedCameraSensor.send_to_buffer, hq1, hd, hq2] at hne
          | ok fs2 =>
            have hfs : (updateStep false st (.success raw rawD)).2.fs = fs2 := by
              rw [updateStep]
              simp [ZedCameraSensor.send_to_buffer, hq1, hd, hq2]
            rw [hfs]
            constructor
            · have hlk := mmap_write_lookup_ne fs1 fs2 "zed_depth_map" "zed_image"
                dv hq2 (by decide)
              rw [mmap_read_congr fs2 fs1 "zed_image" [h, w, 3] hlk]
              have hrb := mmap_write_read_back st.fs fs1 "zed_image" (slice3 raw) hwf hq1
              rw [hsh3] at hrb
              exact hrb
            · intro hc
              exact absurd hc (by simp)

theorem C6_amended_loop_frames_three_channels_witness :
    (updateStep true st0 (.success raw4A raw4D)).2.cell_image = some (slice3 raw4A) ∧
    (slice3 raw4A).shape = [1, 1, 3] ∧
    (true = true →
      (updateStep true st0 (.success raw4A raw4D)).2.cell_depth = some (slice3 raw4D) ∧
      (slice3 raw4D).shape = [1, 1, 3]) ∧
    ((updateStep true st0 (.success raw4A raw4D)).1 = none →
      ZedCameraSensor.mmap_read (updateStep true st0 (.success raw4A raw4D)).2.fs
          "zed_image" [1, 1, 3] = .ok (slice3 raw4A).bytes ∧
      (true = true →
        ZedCameraSensor.mmap_read (updateStep true st0 (.success raw4A raw4D)).2.fs
            "zed_depth_map" [1, 1, 3] = .ok (slice3 raw4D).bytes)) :=
  C6_amended_loop_frames_three_channels true st0 raw4A raw4D 1 1
    (by decide) (by decide) (by decide) (by decide)

/-- C7: if the grabs of a running loop succeed for some prefix of the trace
and then one pull fails, the loop raises `ImageCaptureError` and terminates
with exactly the state the successful prefix produced - the state cell still
holds the frame of the last successful pull, nothing after the failure is
processed (no retry) - and `stop()` on a sensor whose worker exists still
completes without raising (the dead worker joins immediately). -/
theorem C7_pull_failure_terminates_loop (inc : Bool) (st st' : LoopState)
    (gs rest : List GrabStep) (s : ZedCameraSensor)
    (h1 : updateRun inc st gs = (none, st'))
    (h2 : s.thread = some ()) (h3 : s.zed = some ()) :
    updateRun inc st (gs ++ GrabStep.failure :: rest) =
      (some (PyError.imageCaptureError "camera failed to return an image"), st') ∧
    (s.exit).1 = none := by
  constructor
  · rw [updateRun_append, h1]
    simp [updateRun, updateStep]
  · simp [ZedCameraSensor.exit, h2, h3]

theorem C7_pull_failure_terminates_loop_witness :
    updateRun true st0
        ([GrabStep.success raw4A raw4D, GrabStep.success raw4B raw4D] ++
          GrabStep.failure :: []) =
      (some (PyError.imageCaptureError "camera failed to return an image"),
        (updateRun true st0
          [GrabStep.success raw4A raw4D, GrabStep.success raw4B raw4D]).2) ∧
    (s1080on.exit).1 = none :=
  C7_pull_failure_terminates_loop true st0
    (updateRun true st0 [GrabStep.success raw4A raw4D, GrabStep.success raw4B raw4D]).2
    [GrabStep.success raw4A raw4D, GrabStep.success raw4B raw4D] []
    s1080on (by decide) (by decide) (by decide)

/-- C8: a successful `mmap_write` of a well-formed array to a named buffer
followed by `mmap_read` of the same name with the same shape returns exactly
the written bytes; the single statement covers both the case where the write
creates the backing file and the case where an existing file is reused
(opened and partially overwritten, not truncated). -/
theorem C8_buffer_roundtrip (fs fs' : BufferStore) (name : String) (data : NpArray)
    (hw : data.bytes.length = data.shape.prod)
    (hok : ZedCameraSensor.mmap_write fs name data = .ok fs') :
    ZedCameraSensor.mmap_read fs' name data.shape = .ok data.bytes :=
  mmap_write_read_back fs fs' name data hw hok

theorem C8_buffer_roundtrip_witness :
    ZedCameraSensor.mmap_read fs4w "zed_image" np3.shape = .ok np3.bytes :=
  C8_buffer_roundtrip fs4 fs4w "zed_image" np3 (by decide) rfl

/-- C9: each snapshot accessor returns a freshly allocated duplicate of the
stored frame's buffer, not a reference to it: the returned buffer id differs
from both stored ids, carries the same bytes, and overwriting it in place
changes neither stored buffer, so a subsequent snapshot still returns the
original bytes. -/
theorem C9_snapshot_is_copy (c : CellRefs) (h h1 h2 : Heap) (r rd r1 r2 : Nat)
    (bs : List Nat)
    (hir : c.image = some r) (hr : r < h.next)
    (hdr : c.depth = some rd) (hrd : rd < h.next)
    (hres : c.get_image_frame h = .ok (r1, h1))
    (hresD : c.get_depth_map h = .ok (r2, h2)) :
    r1 ≠ r ∧ r1 ≠ rd ∧ r2 ≠ r ∧ r2 ≠ rd ∧
    h1.data r1 = h.data r ∧ h2.data r2 = h.data rd ∧
    (h1.mutateRef r1 bs).data r = h.data r ∧
    (h1.mutateRef r1 bs).data rd = h.data rd ∧
    snapshotImageBytes c (h1.mutateRef r1 bs) = some (h.data r) ∧
    snapshotDepthBytes c (h1.mutateRef r1 bs) = some (h.data rd) ∧
    (h2.mutateRef r2 bs).data r = h.data r ∧
    (h2.mutateRef r2 bs).data rd = h.data rd := by
  rw [CellRefs.get_image_frame, hir] at hres
  rw [CellRefs.get_depth_map, hdr] at hresD
  simp only [Heap.alloc, Except.ok.injEq, Prod.mk.injEq] at hres hresD
  obtain ⟨hr1, hh1⟩ := hres
  obtain ⟨hr2, hh2⟩ := hresD
  subst hr1 hh1 hr2 hh2
  have hne1 : r ≠ h.next := by omega
  have hne2 : rd ≠ h.next := by omega
  refine ⟨by omega, by omega, by omega, by omega, ?_, ?_, ?_, ?_, ?_, ?_, ?_, ?_⟩ <;>
    simp [Heap.mutateRef, Heap.alloc, snapshotImageBytes, snapshotDepthBytes,
      CellRefs.get_image_frame, CellRefs.get_depth_map, hir, hdr, hne1, hne2]

theorem C9_snapshot_is_copy_witness :
    (2 : Nat) ≠ 0 ∧ (2 : Nat) ≠ 1 ∧ (2 : Nat) ≠ 0 ∧ (2 : Nat) ≠ 1 ∧
    ((heapC.alloc (heapC.data 0)).2).data 2 = heapC.data 0 ∧
    ((heapC.alloc (heapC.data 1)).2).data 2 = heapC.data 1 ∧
    (((heapC.alloc (heapC.data 0)).2).mutateRef 2 [0, 0, 0]).data 0 = heapC.data 0 ∧
    (((heapC.alloc (heapC.data 0)).2).mutateRef 2 [0, 0, 0]).data 1 = heapC.data 1 ∧
    snapshotImageBytes cellC (((heapC.alloc (heapC.data 0)).2).mutateRef 2 [0, 0, 0]) =
      some (heapC.data 0) ∧
    snapshotDepthBytes cellC (((heapC.alloc (heapC.data 0)).2).mutateRef 2 [0, 0, 0]) =
      some (heapC.data 1) ∧
    (((heapC.alloc (heapC.data 1)).2).mutateRef 2 [0, 0, 0]).data 0 = heapC.data 0 ∧
    (((heapC.alloc (heapC.data 1)).2).mutateRef 2 [0, 0, 0]).data 1 = heapC.data 1 :=
  C9_snapshot_is_copy cellC heapC
    ((heapC.alloc (heapC.data 0)).2) ((heapC.alloc (heapC.data 1)).2)
    0 1 2 2 [0, 0, 0] rfl (by decide) rfl (by decide) rfl rfl

/-- C10: in every interleaving of the producer's update with a reader's
snapshot, any frame the snapshot returns is wholly the pre-update image or
wholly the post-update image - never bytes of both - and along every
schedule the two critical sections are mutually exclusive, both running
under the one shared `read_lock`. -/
theorem C10_no_torn_snapshot (oldI oldD newI newD v : List Nat)
    (sched pre : List Bool)
    (hv : (runSched newI newD sched (initM oldI oldD)).localImg = some v) :
    (v = oldI ∨ v = newI) ∧
    ¬ (pInCS (runSched newI newD pre (initM oldI oldD)) ∧
       rInCS (runSched newI newD pre (initM oldI oldD))) := by
  constructor
  · have h := minv_run oldI newI newD sched _ (minv_init oldI oldD newI)
    rcases h.2.2.2 with h4 | h4 | h4 <;> rw [hv] at h4 <;> simp_all
  · have h := minv_run oldI newI newD pre _ (minv_init oldI oldD newI)
    rintro ⟨hp, hr⟩
    have := h.1 hp
    have := h.2.1 hr
    simp_all

theorem C10_no_torn_snapshot_witness :
    (([5] : List Nat) = [5] ∨ ([5] : List Nat) = [6]) ∧
    ¬ (pInCS (runSched [6] [8] [true] (initM [5] [7])) ∧
       rInCS (runSched [6] [8] [true] (initM [5] [7]))) :=
  C10_no_torn_snapshot [5] [7] [6] [8] [5] [false, false] [true] (by decide)
